import Mathlib

/-!
Verification of the axios interceptor module (`src/lib/axios.ts`) together with
its collaborators: the Zustand credential store (`src/store/auth.ts`) and the
mock backend routes (`src/app/api/...`).

The TypeScript code runs on the single-threaded JavaScript event loop: each
interceptor handler executes atomically between `await` points.  We embed the
system as a small-step state machine.  A `ReqTask` is one logical request
(one caller of `hqApi.get` etc.); its `Phase` records which suspension point it
sits at.  `stepTask` executes the next atomic block of one task; schedulers are
lists of task indices.  The browser (`window`) is assumed present, so the
redirect branch of `handleGlobalError` is live; redirects and console
diagnostics are modelled as appended event lists.
-/

namespace Axios

/-- Truthiness of a JavaScript `string | null` value (`null` and `""` are falsy). -/
def tokenTruthy : Option String → Bool
  | none => false
  | some s => s != ""

/-- The Zustand auth store state (`src/store/auth.ts`): the credential pair. -/
structure AuthTokens where
  accessToken : Option String
  refreshToken : Option String
deriving Repr, DecidableEq

/-- `clearTokens` from `src/store/auth.ts`: reset both fields to `null`. -/
def clearTokens : AuthTokens := ⟨none, none⟩

/-- Check whether `pat` occurs at the start of `s` (on character lists). -/
def beginsWith : List Char → List Char → Bool
  | [], _ => true
  | _ :: _, [] => false
  | p :: ps, c :: cs => p == c && beginsWith ps cs

/-- Check whether `pat` occurs anywhere in `s` (on character lists). -/
def containsSeq (pat : List Char) : List Char → Bool
  | [] => beginsWith pat []
  | c :: cs => beginsWith pat (c :: cs) || containsSeq pat cs

/-- JavaScript `s.includes(pat)` on Lean strings. -/
def strContains (s pat : String) : Bool := containsSeq pat.data s.data

/-- Mock backend route (`src/app/api/.../route.ts`): returns 401 when the
bearer credential contains the sentinel `"expired"`, else honours the forced
`status` query parameter (404 / 500), else answers 200. -/
def backendRespond (auth : Option String) (statusParam : Option String) : Nat :=
  if strContains (auth.getD "") "expired" then 401
  else if statusParam = some "404" then 404
  else if statusParam = some "500" then 500
  else 200

/-- Suspension points of one logical request flowing through the interceptors. -/
inductive Phase where
  /-- the caller has invoked `instance.get`; request interceptor + transport pending -/
  | toSend
  /-- transport finished with the given response (`none` = transport-level failure);
      the response interceptor's handler is pending -/
  | gotResponse (resp : Option Nat)
  /-- this task started the refresh and sits at `await refreshAccessToken()`;
      `result` is the value the refresh operation will deliver, `delayed` records
      whether the mock 400 ms timer was used -/
  | awaitRefresh (result : Option String) (delayed : Bool)
  /-- subscribed to `refreshQueue`, suspended until some publish invokes the callback -/
  | waiting
  /-- a waiter callback received a token and resolved `instance(originalConfig)`;
      the retried transport round is pending -/
  | toResend
  /-- the caller's promise resolved with this status -/
  | resolved (status : Nat)
  /-- the caller's promise rejected with the original error (its status) -/
  | rejected (resp : Option Nat)
deriving Repr, DecidableEq

/-- One logical request: its axios config (status-forcing param, Authorization
header, `_retry` flag), the backend identity of its dispatcher, an injected
transport-failure switch, and its current suspension point. -/
structure ReqTask where
  apiName : String
  statusParam : Option String
  transportFail : Bool
  headers : Option String
  retryFlag : Bool
  phase : Phase
deriving Repr, DecidableEq

/-- Global system state: the shared credential store, the refresh coordinator
(`isRefreshing` / `refreshQueue` from `src/lib/axios.ts` lines 34-35), the task
pool, and observation counters (number of `refreshAccessToken` invocations,
number of refresh calls that performed the 400 ms delay, emitted redirects and
console diagnostics). -/
structure SysState where
  store : AuthTokens
  isRefreshing : Bool
  refreshQueue : List Nat
  tasks : List ReqTask
  refreshCalls : Nat
  timerWaits : Nat
  redirects : List (Nat × String)
  diagnostics : List (String × Nat)
deriving Repr, DecidableEq

/-- Request interceptor (`axios.ts` lines 123-132): read the current access
token from the store; when truthy, overwrite the `Authorization` header;
otherwise leave the config's headers untouched. -/
def applyRequestInterceptor (store : AuthTokens) (headers : Option String) : Option String :=
  if tokenTruthy store.accessToken then store.accessToken else headers

/-- The transport round: an injected transport-level failure yields no status;
otherwise the mock backend answers by bearer header and status parameter. -/
def transport (t : ReqTask) (h : Option String) : Option Nat :=
  if t.transportFail then none else some (backendRespond h t.statusParam)

/-- `refreshAccessToken` (`axios.ts` lines 64-74), decided at call time: with no
(truthy) refresh token it returns `null` at once (no timer); otherwise it waits
on the 400 ms timer and returns `"new-access-token"`.  The second component
records whether the timer was used. -/
def refreshAccessToken (rt : Option String) : Option String × Bool :=
  if tokenTruthy rt then (some "new-access-token", true) else (none, false)

/-- Console diagnostics emitted by `handleGlobalError` (`axios.ts` lines 91-96):
a warn record exactly for status 404 and for status 500. -/
def diagOf (resp : Option Nat) (api : String) : List (String × Nat) :=
  (if resp = some 404 then [(api, 404)] else []) ++
    (if resp = some 500 then [(api, 500)] else [])

/-- Redirect emitted by `handleGlobalError` (`axios.ts` lines 100-103): only
when a status is present, is at least 400 and is not 401. -/
def redirOf (resp : Option Nat) (api : String) : List (Nat × String) :=
  match resp with
  | some s => if 400 ≤ s ∧ s ≠ 401 then [(s, api)] else []
  | none => []

/-- `handleGlobalError` (`axios.ts` lines 87-104): append the console
diagnostics and the `/error?status=...&api=...` redirect, touching nothing else. -/
def handleGlobalError (st : SysState) (resp : Option Nat) (api : String) : SysState :=
  { st with
    diagnostics := st.diagnostics ++ diagOf resp api
    redirects := st.redirects ++ redirOf resp api }

/-- Replace task `i` in the pool. -/
def updTask (st : SysState) (i : Nat) (t : ReqTask) : SysState :=
  { st with tasks := st.tasks.set i t }

/-- `subscribeTokenRefresh` (`axios.ts` lines 41-43): append a callback
(identified by its task) to the refresh queue. -/
def subscribeTokenRefresh (st : SysState) (i : Nat) : SysState :=
  { st with refreshQueue := st.refreshQueue ++ [i] }

/-- Effect of one queued callback (`axios.ts` lines 191-204) on its own task:
a falsy token rejects the request with the original 401 error; a truthy token
is written into the config's `Authorization` header and the request is resent. -/
def applyCb (token : Option String) (t : ReqTask) : ReqTask :=
  if tokenTruthy token then { t with headers := token, phase := .toResend }
  else { t with phase := .rejected (some 401) }

/-- Run one subscribed callback: the failure branch additionally calls
`handleGlobalError` on the original 401 error before rejecting. -/
def runCb (token : Option String) (st : SysState) (j : Nat) : SysState :=
  match st.tasks[j]? with
  | none => st
  | some t =>
    if tokenTruthy token then updTask st j (applyCb token t)
    else handleGlobalError (updTask st j (applyCb token t)) (some 401) t.apiName

/-- `publishTokenRefresh` (`axios.ts` lines 49-52): invoke every queued
callback in order with the refresh outcome, then reset the queue to empty. -/
def publishTokenRefresh (token : Option String) (st : SysState) : SysState :=
  let st1 := st.refreshQueue.foldl (runCb token) st
  { st1 with refreshQueue := [] }

/-- One atomic event-loop block of task `i` (the code between two `await`
points of `axios.ts`), or `none` when the task is suspended or terminal:

* `toSend` / `toResend`: request interceptor reads the store, then the
  transport round completes with the backend's answer;
* `gotResponse`: the response interceptor error handler (lines 146-212) —
  2xx resolves; a first 401 either starts the refresh (setting `isRefreshing`,
  invoking `refreshAccessToken`) or, when a refresh is already in flight,
  subscribes and waits; everything else goes to `handleGlobalError` and rejects;
* `awaitRefresh`: the initiator resumes after the refresh operation — it stores
  the new credential (keeping the current refresh token), publishes the outcome
  to the queue, clears `isRefreshing`, and only then subscribes its own
  callback (lines 174-205 in source order);
* `waiting` tasks move only when a publish rewrites their phase. -/
def stepTask (st : SysState) (i : Nat) : Option SysState :=
  match st.tasks[i]? with
  | none => none
  | some t =>
    match t.phase with
    | .toSend =>
      let h := applyRequestInterceptor st.store t.headers
      some (updTask st i { t with headers := h, phase := .gotResponse (transport t h) })
    | .toResend =>
      let h := applyRequestInterceptor st.store t.headers
      some (updTask st i { t with headers := h, phase := .gotResponse (transport t h) })
    | .gotResponse resp =>
      match resp with
      | some s =>
        if 200 ≤ s ∧ s < 300 then
          some (updTask st i { t with phase := .resolved s })
        else if s = 401 ∧ t.retryFlag = false then
          if st.isRefreshing = false then
            let r := refreshAccessToken st.store.refreshToken
            some { updTask st i { t with retryFlag := true, phase := .awaitRefresh r.1 r.2 } with
                   isRefreshing := true
                   refreshCalls := st.refreshCalls + 1
                   timerWaits := st.timerWaits + (if r.2 then 1 else 0) }
          else
            some (subscribeTokenRefresh
              (updTask st i { t with retryFlag := true, phase := .waiting }) i)
        else
          some (handleGlobalError
            (updTask st i { t with phase := .rejected (some s) }) (some s) t.apiName)
      | none =>
        some (handleGlobalError
          (updTask st i { t with phase := .rejected none }) none t.apiName)
    | .awaitRefresh result _ =>
      let st1 := { st with store := ⟨result, st.store.refreshToken⟩ }
      let st2 := publishTokenRefresh result st1
      let st3 := { st2 with isRefreshing := false }
      match st3.tasks[i]? with
      | none => none
      | some u => some (subscribeTokenRefresh (updTask st3 i { u with phase := .waiting }) i)
    | .waiting => none
    | .resolved _ => none
    | .rejected _ => none

/-- Run a schedule (a list of task indices); indices whose task has no enabled
step are skipped. -/
def run (st : SysState) (sched : List Nat) : SysState :=
  sched.foldl (fun s i => (stepTask s i).getD s) st

/-- Reachability under arbitrary interleavings of task steps. -/
inductive Reachable (init : SysState) : SysState → Prop
  | refl : Reachable init init
  | step {s s1 : SysState} (i : Nat) : Reachable init s → stepTask s i = some s1 →
      Reachable init s1

/-- A freshly issued request on the dispatcher named `api`: default config
(no forced status, no injected transport failure, no headers, `_retry` unset). -/
def mkTask (api : String) : ReqTask :=
  { apiName := api, statusParam := none, transportFail := false
    headers := none, retryFlag := false, phase := .toSend }

/-- A system start state: a given credential pair, the coordinator idle with an
empty queue, a given task pool, and no observations yet. -/
def initState (store : AuthTokens) (ts : List ReqTask) : SysState :=
  { store := store, isRefreshing := false, refreshQueue := [], tasks := ts
    refreshCalls := 0, timerWaits := 0, redirects := [], diagnostics := [] }

/-! ### Basic lemmas about the embedding -/

/-- Does a phase mark the task as the active refresher (sitting inside the
`await refreshAccessToken()` call)? -/
def isAwait : Phase → Bool
  | .awaitRefresh _ _ => true
  | _ => false

theorem applyCb_not_await (token : Option String) (t : ReqTask) :
    isAwait (applyCb token t).phase = false := by
  unfold applyCb; split <;> rfl

theorem handleGlobalError_tasks (st : SysState) (r : Option Nat) (a : String) :
    (handleGlobalError st r a).tasks = st.tasks := rfl

theorem handleGlobalError_frame (st : SysState) (r : Option Nat) (a : String) :
    (handleGlobalError st r a).store = st.store ∧
    (handleGlobalError st r a).isRefreshing = st.isRefreshing ∧
    (handleGlobalError st r a).refreshQueue = st.refreshQueue ∧
    (handleGlobalError st r a).refreshCalls = st.refreshCalls ∧
    (handleGlobalError st r a).timerWaits = st.timerWaits :=
  ⟨rfl, rfl, rfl, rfl, rfl⟩

/-- Destructing `(l.set i a)[j]? = some b`: either the write hit `j`, or the
read bypassed it. -/
theorem getElem?_set_cases {α : Type} {l : List α} {i j : Nat} {a b : α}
    (h : (l.set i a)[j]? = some b) :
    (i = j ∧ b = a) ∨ (i ≠ j ∧ l[j]? = some b) := by
  by_cases e : i = j
  · subst e
    rw [List.getElem?_set_self'] at h
    cases h2 : l[i]? with
    | none => rw [h2] at h; simp at h
    | some x =>
      rw [h2] at h
      simp only [Option.map_some, Option.some.injEq, Function.const_apply] at h
      exact Or.inl ⟨rfl, h.symm⟩
  · rw [List.getElem?_set_ne e] at h
    exact Or.inr ⟨e, h⟩

theorem runCb_store (token : Option String) (st : SysState) (a : Nat) :
    (runCb token st a).store = st.store := by
  unfold runCb
  cases st.tasks[a]? with
  | none => rfl
  | some t => dsimp only; split <;> rfl

theorem runCb_refreshCalls (token : Option String) (st : SysState) (a : Nat) :
    (runCb token st a).refreshCalls = st.refreshCalls := by
  unfold runCb
  cases st.tasks[a]? with
  | none => rfl
  | some t => dsimp only; split <;> rfl

theorem runCb_isRefreshing (token : Option String) (st : SysState) (a : Nat) :
    (runCb token st a).isRefreshing = st.isRefreshing := by
  unfold runCb
  cases st.tasks[a]? with
  | none => rfl
  | some t => dsimp only; split <;> rfl

theorem runCb_refreshQueue (token : Option String) (st : SysState) (a : Nat) :
    (runCb token st a).refreshQueue = st.refreshQueue := by
  unfold runCb
  cases st.tasks[a]? with
  | none => rfl
  | some t => dsimp only; split <;> rfl

theorem runCb_timerWaits (token : Option String) (st : SysState) (a : Nat) :
    (runCb token st a).timerWaits = st.timerWaits := by
  unfold runCb
  cases st.tasks[a]? with
  | none => rfl
  | some t => dsimp only; split <;> rfl

/-- The task pool after one callback: untouched when the index is dead,
otherwise the task at that index is rewritten through `applyCb`. -/
theorem runCb_tasks (token : Option String) (st : SysState) (a : Nat) :
    (runCb token st a).tasks =
      (match st.tasks[a]? with
       | none => st.tasks
       | some t => st.tasks.set a (applyCb token t)) := by
  unfold runCb
  cases st.tasks[a]? with
  | none => rfl
  | some t => dsimp only; split <;> rfl

theorem pubFold_store (token : Option String) (q : List Nat) (st : SysState) :
    (q.foldl (runCb token) st).store = st.store := by
  induction q generalizing st with
  | nil => rfl
  | cons a q ih => rw [List.foldl_cons, ih, runCb_store]

theorem pubFold_refreshCalls (token : Option String) (q : List Nat) (st : SysState) :
    (q.foldl (runCb token) st).refreshCalls = st.refreshCalls := by
  induction q generalizing st with
  | nil => rfl
  | cons a q ih => rw [List.foldl_cons, ih, runCb_refreshCalls]

theorem pubFold_timerWaits (token : Option String) (q : List Nat) (st : SysState) :
    (q.foldl (runCb token) st).timerWaits = st.timerWaits := by
  induction q generalizing st with
  | nil => rfl
  | cons a q ih => rw [List.foldl_cons, ih, runCb_timerWaits]

/-- Any task present after a publish fold was either already present or is a
callback image, hence not an active refresher. -/
theorem pubFold_tasks_pred (token : Option String) (q : List Nat) :
    ∀ (st : SysState) (j : Nat) (u : ReqTask),
      ((q.foldl (runCb token) st).tasks)[j]? = some u →
      st.tasks[j]? = some u ∨ isAwait u.phase = false := by
  induction q with
  | nil => intro st j u h; exact Or.inl h
  | cons a q ih =>
    intro st j u h
    rw [List.foldl_cons] at h
    rcases ih (runCb token st a) j u h with h1 | h1
    · rw [runCb_tasks] at h1
      cases hta : st.tasks[a]? with
      | none => rw [hta] at h1; exact Or.inl h1
      | some ta =>
        rw [hta] at h1
        rcases getElem?_set_cases h1 with ⟨rfl, rfl⟩ | ⟨_, h2⟩
        · exact Or.inr (applyCb_not_await token ta)
        · exact Or.inl h2
    · exact Or.inr h1

/-- A publish fold leaves indices outside the queue untouched. -/
theorem pubFold_tasks_notMem (token : Option String) (q : List Nat) :
    ∀ (st : SysState) (j : Nat), j ∉ q →
      ((q.foldl (runCb token) st).tasks)[j]? = st.tasks[j]? := by
  induction q with
  | nil => intro st j _; rfl
  | cons a q ih =>
    intro st j hj
    rw [List.foldl_cons, ih (runCb token st a) j (fun h => hj (List.mem_cons_of_mem a h)),
      runCb_tasks]
    cases hta : st.tasks[a]? with
    | none => rfl
    | some ta =>
      have hne : a ≠ j := fun e => hj (e ▸ List.mem_cons_self a q)
      rw [List.getElem?_set_ne hne]

/-- A publish fold rewrites each queued (duplicate-free) index through
`applyCb` exactly once. -/
theorem pubFold_tasks_mem (token : Option String) (q : List Nat) :
    ∀ (st : SysState) (j : Nat) (u : ReqTask), q.Nodup → j ∈ q →
      st.tasks[j]? = some u →
      ((q.foldl (runCb token) st).tasks)[j]? = some (applyCb token u) := by
  induction q with
  | nil => intro st j u _ hj; exact absurd hj (List.not_mem_nil j)
  | cons a q ih =>
    intro st j u hnd hj hu
    rw [List.foldl_cons]
    rcases List.nodup_cons.mp hnd with ⟨hna, hndq⟩
    rcases List.mem_cons.mp hj with rfl | hjq
    · rw [pubFold_tasks_notMem token q _ j hna, runCb_tasks, hu]
      have hlen : j < st.tasks.length := (List.getElem?_eq_some_iff.mp hu).1
      rw [List.getElem?_set_self (by simpa using hlen)]
    · have hne : a ≠ j := fun e => hna (e ▸ hjq)
      refine ih (runCb token st a) j u hndq hjq ?_
      rw [runCb_tasks]
      cases hta : st.tasks[a]? with
      | none => exact hu
      | some ta => rw [List.getElem?_set_ne hne]; exact hu

/-! ### The single-refresh invariant -/

/-- Coordinator invariant on a flag/pool pair: (1) at most one task is the
active refresher; (2) when the flag reads `Idle` (`false`) no task is an active
refresher at all. -/
def InvOn (refreshing : Bool) (tasks : List ReqTask) : Prop :=
  (∀ (i j : Nat) (ti tj : ReqTask), tasks[i]? = some ti → tasks[j]? = some tj →
      isAwait ti.phase = true → isAwait tj.phase = true → i = j) ∧
  (refreshing = false → ∀ (j : Nat) (t : ReqTask), tasks[j]? = some t →
      isAwait t.phase = false)

/-- The coordinator invariant of a system state. -/
def RefreshInv (st : SysState) : Prop := InvOn st.isRefreshing st.tasks

theorem invOn_set_nonAwait {b : Bool} {l : List ReqTask} {i : Nat} {t1 : ReqTask}
    (hInv : InvOn b l) (ht1 : isAwait t1.phase = false) : InvOn b (l.set i t1) := by
  constructor
  · intro i1 j1 ti tj hi hj hti htj
    rcases getElem?_set_cases hi with ⟨rfl, rfl⟩ | ⟨_, hi2⟩
    · exact absurd hti (by simp [ht1])
    rcases getElem?_set_cases hj with ⟨rfl, rfl⟩ | ⟨_, hj2⟩
    · exact absurd htj (by simp [ht1])
    exact hInv.1 i1 j1 ti tj hi2 hj2 hti htj
  · intro hb j1 t2 hj
    rcases getElem?_set_cases hj with ⟨rfl, rfl⟩ | ⟨_, hj2⟩
    · exact ht1
    · exact hInv.2 hb j1 t2 hj2

/-- Starting a refresh from an idle coordinator: afterwards the new refresher
is the only candidate. -/
theorem invOn_start {l : List ReqTask} {i : Nat} {t1 : ReqTask}
    (hInv : InvOn false l) : InvOn true (l.set i t1) := by
  constructor
  · intro i1 j1 ti tj hi hj hti htj
    rcases getElem?_set_cases hi with ⟨rfl, rfl⟩ | ⟨_, hi2⟩
    · rcases getElem?_set_cases hj with ⟨e2, rfl⟩ | ⟨_, hj2⟩
      · exact e2
      · exact absurd htj (by simp [hInv.2 rfl j1 tj hj2])
    · exact absurd hti (by simp [hInv.2 rfl i1 ti hi2])
  · intro hb; exact absurd hb (by simp)

/-- Every atomic step preserves the coordinator invariant.  The crucial cases:
starting a refresh is guarded by `isRefreshing = false` in the same atomic
block that sets the flag, and the initiator's resume clears the flag only
after every task it rewrites has left the refreshing phase. -/
theorem refreshInv_step {st st1 : SysState} {i : Nat}
    (hInv : RefreshInv st) (hstep : stepTask st i = some st1) : RefreshInv st1 := by
  unfold stepTask at hstep
  cases ht : st.tasks[i]? with
  | none => rw [ht] at hstep; dsimp only at hstep; cases hstep
  | some t =>
    rw [ht] at hstep; dsimp only at hstep
    cases hp : t.phase with
    | toSend =>
      rw [hp] at hstep; dsimp only at hstep
      injection hstep with he; subst he
      exact invOn_set_nonAwait hInv rfl
    | toResend =>
      rw [hp] at hstep; dsimp only at hstep
      injection hstep with he; subst he
      exact invOn_set_nonAwait hInv rfl
    | gotResponse resp =>
      rw [hp] at hstep; dsimp only at hstep
      cases resp with
      | none =>
        dsimp only at hstep
        injection hstep with he; subst he
        exact invOn_set_nonAwait hInv rfl
      | some s =>
        dsimp only at hstep
        by_cases h2 : 200 ≤ s ∧ s < 300
        · rw [if_pos h2] at hstep
          injection hstep with he; subst he
          exact invOn_set_nonAwait hInv rfl
        · rw [if_neg h2] at hstep
          by_cases h3 : s = 401 ∧ t.retryFlag = false
          · rw [if_pos h3] at hstep
            by_cases h4 : st.isRefreshing = false
            · rw [if_pos h4] at hstep
              injection hstep with he; subst he
              exact invOn_start (h4 ▸ hInv)
            · rw [if_neg h4] at hstep
              injection hstep with he; subst he
              exact invOn_set_nonAwait hInv rfl
          · rw [if_neg h3] at hstep
            injection hstep with he; subst he
            exact invOn_set_nonAwait hInv rfl
    | waiting => rw [hp] at hstep; cases hstep
    | resolved s => rw [hp] at hstep; cases hstep
    | rejected r => rw [hp] at hstep; cases hstep
    | awaitRefresh result d =>
      rw [hp] at hstep; dsimp only at hstep
      split at hstep
      · cases hstep
      · rename_i u hu
        injection hstep with he; subst he
        have htAw : isAwait t.phase = true := by rw [hp]; rfl
        have hno : ∀ (j : Nat) (u2 : ReqTask),
            ((st.refreshQueue.foldl (runCb result)
                { st with store := ⟨result, st.store.refreshToken⟩ }).tasks.set i
              { u with phase := .waiting })[j]? = some u2 →
            isAwait u2.phase = false := by
          intro j u2 hj
          rcases getElem?_set_cases hj with ⟨_, rfl⟩ | ⟨hne, hj2⟩
          · rfl
          · rcases pubFold_tasks_pred result st.refreshQueue
                { st with store := ⟨result, st.store.refreshToken⟩ } j u2 hj2 with h5 | h5
            · by_contra hAw
              rw [Bool.not_eq_false] at hAw
              exact hne (hInv.1 i j t u2 ht h5 htAw hAw)
            · exact h5
        exact ⟨fun i1 j1 ti tj hi _ hti _ => absurd hti (by simp [hno i1 ti hi]),
               fun _ => hno⟩

/-! ### Step characterisation lemmas -/

/-- A step on a dead index does nothing. -/
theorem stepTask_oob (st : SysState) (i : Nat) (h : st.tasks.length ≤ i) :
    stepTask st i = none := by
  unfold stepTask
  rw [List.getElem?_eq_none h]

/-- A 2xx response resolves the caller unchanged. -/
theorem step_gotResponse_2xx (st : SysState) (i : Nat) (t : ReqTask) (s : Nat)
    (ht : st.tasks[i]? = some t) (hp : t.phase = .gotResponse (some s))
    (h2 : 200 ≤ s ∧ s < 300) :
    stepTask st i = some (updTask st i { t with phase := .resolved s }) := by
  unfold stepTask
  rw [ht]; dsimp only; rw [hp]; dsimp only
  rw [if_pos h2]

/-- Any response that is neither a success nor a first-time 401 goes through
`handleGlobalError` and rejects the caller with the original error. -/
theorem step_gotResponse_reject (st : SysState) (i : Nat) (t : ReqTask) (s : Nat)
    (ht : st.tasks[i]? = some t) (hp : t.phase = .gotResponse (some s))
    (h2 : ¬(200 ≤ s ∧ s < 300)) (h3 : ¬(s = 401 ∧ t.retryFlag = false)) :
    stepTask st i = some (handleGlobalError
      (updTask st i { t with phase := .rejected (some s) }) (some s) t.apiName) := by
  unfold stepTask
  rw [ht]; dsimp only; rw [hp]; dsimp only
  rw [if_neg h2, if_neg h3]

/-- A transport-level failure (no HTTP status) goes through `handleGlobalError`
and rejects the caller. -/
theorem step_gotResponse_none (st : SysState) (i : Nat) (t : ReqTask)
    (ht : st.tasks[i]? = some t) (hp : t.phase = .gotResponse none) :
    stepTask st i = some (handleGlobalError
      (updTask st i { t with phase := .rejected none }) none t.apiName) := by
  unfold stepTask
  rw [ht]; dsimp only; rw [hp]

theorem publishTokenRefresh_store (token : Option String) (st : SysState) :
    (publishTokenRefresh token st).store = st.store :=
  pubFold_store token st.refreshQueue st

theorem publishTokenRefresh_refreshCalls (token : Option String) (st : SysState) :
    (publishTokenRefresh token st).refreshCalls = st.refreshCalls :=
  pubFold_refreshCalls token st.refreshQueue st

/-- Start states whose tasks are all outside the refreshing phase satisfy the
coordinator invariant. -/
theorem refreshInv_of_initState (store : AuthTokens) (ts : List ReqTask)
    (h : ∀ t ∈ ts, isAwait t.phase = false) : RefreshInv (initState store ts) := by
  constructor
  · intro i j ti tj hi _ hti _
    exact absurd hti (by simp [h ti (List.getElem?_mem hi)])
  · intro _ j t hj
    exact h t (List.getElem?_mem hj)

/-! ### Claim C1 -/

/-- C1: at every reachable state at most one refresh operation is in flight
(`RefreshInv`, preserved from any well-formed start state), and any request
that observes a 401 while `isRefreshing` is set is appended to the waiter
queue and moves to `waiting` in the same atomic step, without invoking the
refresh operation again (`refreshCalls` and the flag are untouched).  Since
the check and the transition are one atomic event-loop block, two requests
arriving in the same scheduling tick cannot both observe the idle state and
both start a refresh. -/
theorem spec_C1 (init s : SysState) (hinit : RefreshInv init) (hre : Reachable init s) :
    RefreshInv s ∧
    (∀ (i : Nat) (t : ReqTask), s.tasks[i]? = some t →
      t.phase = .gotResponse (some 401) → t.retryFlag = false → s.isRefreshing = true →
      stepTask s i = some (subscribeTokenRefresh
          (updTask s i { t with retryFlag := true, phase := .waiting }) i) ∧
      (subscribeTokenRefresh (updTask s i { t with retryFlag := true, phase := .waiting })
          i).refreshCalls = s.refreshCalls ∧
      (subscribeTokenRefresh (updTask s i { t with retryFlag := true, phase := .waiting })
          i).isRefreshing = true ∧
      (subscribeTokenRefresh (updTask s i { t with retryFlag := true, phase := .waiting })
          i).refreshQueue = s.refreshQueue ++ [i]) := by
  constructor
  · induction hre with
    | refl => exact hinit
    | step i hr hstep ih => exact refreshInv_step ih hstep
  · intro i t ht hp hr hir
    refine ⟨?_, rfl, hir, rfl⟩
    unfold stepTask
    rw [ht]; dsimp only; rw [hp]; dsimp only
    rw [if_neg (by omega), if_pos ⟨rfl, hr⟩, if_neg (by simp [hir])]

def c1Init : SysState :=
  initState ⟨some "expired-token", some "r1"⟩ [mkTask "HQ-ERP", mkTask "Client-App"]

def c1Mid : SysState := run c1Init [0, 0, 1]

def c1Task : ReqTask :=
  { apiName := "Client-App", statusParam := none, transportFail := false
    headers := some "expired-token", retryFlag := false, phase := .gotResponse (some 401) }

theorem spec_C1_witness :
    RefreshInv c1Mid ∧
    stepTask c1Mid 1 = some (subscribeTokenRefresh
      (updTask c1Mid 1 { c1Task with retryFlag := true, phase := .waiting }) 1) := by
  have hInv : RefreshInv c1Init := refreshInv_of_initState _ _ (by decide)
  have h0 : stepTask c1Init 0 = some (run c1Init [0]) := by decide
  have h1 : stepTask (run c1Init [0]) 0 = some (run c1Init [0, 0]) := by decide
  have h2 : stepTask (run c1Init [0, 0]) 1 = some (run c1Init [0, 0, 1]) := by decide
  have hre : Reachable c1Init c1Mid :=
    Reachable.step 1 (Reachable.step 0 (Reachable.step 0 Reachable.refl h0) h1) h2
  have h := spec_C1 c1Init c1Mid hInv hre
  exact ⟨h.1, (h.2 1 c1Task (by decide) rfl rfl (by decide)).1⟩

/-! ### Claim C2 -/

def c2Init : SysState :=
  initState ⟨some "expired-token", some "r1"⟩ [mkTask "HQ-ERP", mkTask "HQ-ERP", mkTask "HQ-ERP"]

def c2Final : SysState := run c2Init [0, 1, 2, 0, 1, 2, 0, 1, 1, 2, 2]

/-- C2 (code bug, evaluated at the failing input): three concurrent requests
through the same dispatcher all receive 401.  Exactly one refresh call is
observed and the two spectator waiters resolve with status 200 carrying
`"new-access-token"` — but the initiating request subscribes its own callback
only after `publishTokenRefresh` has already flushed and emptied the queue, so
it is left `waiting` forever with its callback orphaned in the queue: the
system is quiescent (no task has an enabled step) with the initiator
unresolved, contradicting the claimed outcome that all three resolve. -/
theorem spec_C2_bug :
    c2Final.refreshCalls = 1 ∧
    c2Final.tasks.map (fun t => t.phase) = [.waiting, .resolved 200, .resolved 200] ∧
    c2Final.tasks.map (fun t => t.headers) =
      [some "expired-token", some "new-access-token", some "new-access-token"] ∧
    c2Final.store.accessToken = some "new-access-token" ∧
    c2Final.refreshQueue = [0] ∧
    ∀ i, stepTask c2Final i = none := by
  refine ⟨by decide, by decide, by decide, by decide, by decide, ?_⟩
  intro i
  match i with
  | 0 => decide
  | 1 => decide
  | 2 => decide
  | (n + 3) =>
    exact stepTask_oob c2Final (n + 3)
      (by rw [show c2Final.tasks.length = 3 from by decide]; omega)

/-! ### Claim C3 -/

/-- C3: a request whose single-use `_retry` flag is already set and which
receives another 401 terminates as a rejection delivered to the caller,
without invoking the refresh operation again: the step leaves `refreshCalls`,
the flag, the queue and the store untouched, the task ends `rejected`, and no
further step is enabled for it. -/
theorem spec_C3 (st : SysState) (i : Nat) (t : ReqTask)
    (ht : st.tasks[i]? = some t) (hp : t.phase = .gotResponse (some 401))
    (hr : t.retryFlag = true) :
    stepTask st i = some (handleGlobalError
      (updTask st i { t with phase := .rejected (some 401) }) (some 401) t.apiName) ∧
    ∀ s1, stepTask st i = some s1 →
      s1.refreshCalls = st.refreshCalls ∧ s1.isRefreshing = st.isRefreshing ∧
      s1.refreshQueue = st.refreshQueue ∧ s1.store = st.store ∧
      s1.tasks[i]? = some { t with phase := .rejected (some 401) } ∧
      stepTask s1 i = none := by
  have hlen : i < st.tasks.length := (List.getElem?_eq_some_iff.mp ht).1
  have h1 : stepTask st i = some (handleGlobalError
      (updTask st i { t with phase := .rejected (some 401) }) (some 401) t.apiName) :=
    step_gotResponse_reject st i t 401 ht hp (by omega) (by simp [hr])
  refine ⟨h1, ?_⟩
  intro s1 hs1
  rw [h1] at hs1
  injection hs1 with he; subst he
  have h2 : (handleGlobalError (updTask st i { t with phase := .rejected (some 401) })
      (some 401) t.apiName).tasks[i]? = some { t with phase := .rejected (some 401) } := by
    rw [handleGlobalError_tasks]
    exact List.getElem?_set_self (by simpa using hlen)
  refine ⟨rfl, rfl, rfl, rfl, h2, ?_⟩
  unfold stepTask
  rw [h2]

def c3Task : ReqTask :=
  { mkTask "HQ-ERP" with headers := some "new-access-token", retryFlag := true
                         phase := .gotResponse (some 401) }

def c3St : SysState := initState ⟨some "new-access-token", some "r1"⟩ [c3Task]

theorem spec_C3_witness :
    (run c3St [0]).refreshCalls = c3St.refreshCalls ∧
    (run c3St [0]).tasks[0]? = some { c3Task with phase := .rejected (some 401) } ∧
    stepTask (run c3St [0]) 0 = none :=
  have h := spec_C3 c3St 0 c3Task (by decide) rfl rfl
  have hrun : stepTask c3St 0 = some (run c3St [0]) := by decide
  ⟨(h.2 _ hrun).1, (h.2 _ hrun).2.2.2.2.1, (h.2 _ hrun).2.2.2.2.2⟩

/-! ### Claim C4 -/

def c4Init : SysState :=
  initState ⟨some "expired-token", none⟩ [mkTask "HQ-ERP", mkTask "Client-App"]

def c4Final : SysState := run c4Init [0, 1, 0, 1, 0]

/-- C4 (code bug, evaluated at the failing input): a 401 is handled while no
refresh token is stored.  The refresh operation fails immediately without the
400 ms transport delay (`timerWaits = 0`), the store ends with both fields
empty, and the enqueued spectator waiter receives the failure signal and is
rejected — but the initiating caller never receives a terminal failure: its
callback is subscribed only after the publish, so it is left `waiting` in a
quiescent system, contradicting the claimed terminal failure for the original
caller. -/
theorem spec_C4_bug :
    c4Final.refreshCalls = 1 ∧ c4Final.timerWaits = 0 ∧
    c4Final.store = ⟨none, none⟩ ∧
    c4Final.tasks.map (fun t => t.phase) = [.waiting, .rejected (some 401)] ∧
    c4Final.refreshQueue = [0] ∧ c4Final.redirects = [] ∧
    ∀ i, stepTask c4Final i = none := by
  refine ⟨by decide, by decide, by decide, by decide, by decide, by decide, ?_⟩
  intro i
  match i with
  | 0 => decide
  | 1 => decide
  | (n + 2) =>
    exact stepTask_oob c4Final (n + 2)
      (by rw [show c4Final.tasks.length = 2 from by decide]; omega)

/-! ### Claim C5 -/

def c5St : SysState :=
  initState ⟨none, none⟩ [{ mkTask "HQ-ERP" with phase := .gotResponse (some 403) }]

/-- C5 counterexample: a 403 response is rejected and redirected, but no
diagnostic record is emitted (the code logs only for 404 and 500), refuting the
claim that every status at least 400 and other than 401 emits a diagnostic. -/
theorem spec_C5_cex :
    (stepTask c5St 0).map (fun s1 => (s1.diagnostics, s1.redirects)) =
      some ([], [(403, "HQ-ERP")]) := by decide

/-- C5 (amended): for every response with status at least 400 and other than
401, the dispatcher never retries and never invokes the refresh operation
(`refreshCalls`, flag, queue and store untouched; the task terminates), it
triggers a redirect carrying the numeric status and the backend identity, and
rejects the caller with the original error; the console diagnostic is emitted
exactly for statuses 404 and 500 (`diagOf`). -/
theorem spec_C5 (st : SysState) (i : Nat) (t : ReqTask) (s : Nat)
    (ht : st.tasks[i]? = some t) (hp : t.phase = .gotResponse (some s))
    (h400 : 400 ≤ s) (h401 : s ≠ 401) :
    stepTask st i = some (handleGlobalError
      (updTask st i { t with phase := .rejected (some s) }) (some s) t.apiName) ∧
    ∀ s1, stepTask st i = some s1 →
      s1.refreshCalls = st.refreshCalls ∧ s1.isRefreshing = st.isRefreshing ∧
      s1.refreshQueue = st.refreshQueue ∧ s1.store = st.store ∧
      s1.redirects = st.redirects ++ [(s, t.apiName)] ∧
      s1.diagnostics = st.diagnostics ++ diagOf (some s) t.apiName ∧
      s1.tasks[i]? = some { t with phase := .rejected (some s) } ∧
      stepTask s1 i = none := by
  have hlen : i < st.tasks.length := (List.getElem?_eq_some_iff.mp ht).1
  have h1 : stepTask st i = some (handleGlobalError
      (updTask st i { t with phase := .rejected (some s) }) (some s) t.apiName) :=
    step_gotResponse_reject st i t s ht hp (by omega) (by simp [h401])
  refine ⟨h1, ?_⟩
  intro s1 hs1
  rw [h1] at hs1
  injection hs1 with he; subst he
  have h2 : (handleGlobalError (updTask st i { t with phase := .rejected (some s) })
      (some s) t.apiName).tasks[i]? = some { t with phase := .rejected (some s) } := by
    rw [handleGlobalError_tasks]
    exact List.getElem?_set_self (by simpa using hlen)
  refine ⟨rfl, rfl, rfl, rfl, ?_, rfl, h2, ?_⟩
  · show st.redirects ++ redirOf (some s) t.apiName = st.redirects ++ [(s, t.apiName)]
    rw [show redirOf (some s) t.apiName = [(s, t.apiName)] from by
      unfold redirOf; dsimp only; rw [if_pos ⟨h400, h401⟩]]
  · unfold stepTask
    rw [h2]

def c5WTask : ReqTask := { mkTask "Vendor-ERP" with phase := .gotResponse (some 404) }

def c5WSt : SysState := initState ⟨none, none⟩ [c5WTask]

theorem spec_C5_witness :
    (run c5WSt [0]).redirects = [(404, "Vendor-ERP")] ∧
    (run c5WSt [0]).diagnostics = [("Vendor-ERP", 404)] ∧
    (run c5WSt [0]).refreshCalls = c5WSt.refreshCalls ∧
    stepTask (run c5WSt [0]) 0 = none :=
  have h := spec_C5 c5WSt 0 c5WTask 404 (by decide) rfl (by omega) (by omega)
  have hrun : stepTask c5WSt 0 = some (run c5WSt [0]) := by decide
  ⟨(h.2 _ hrun).2.2.2.2.1, (h.2 _ hrun).2.2.2.2.2.1,
   (h.2 _ hrun).1, (h.2 _ hrun).2.2.2.2.2.2.2⟩

/-! ### Claim C6 -/

def c6St : SysState :=
  initState ⟨some "tok", some "r1"⟩
    [{ mkTask "Vendor-ERP" with transportFail := true, phase := .gotResponse none }]

/-- C6 counterexample: a transport-level failure (no HTTP status) terminates
the request as a rejection but emits no redirect at all — the redirect guard
requires a defined status — refuting the claim that every terminal failure
other than a recovered 401 redirects to the error surface. -/
theorem spec_C6_cex :
    (stepTask c6St 0).map (fun s1 => (s1.redirects, s1.tasks.map (fun u => u.phase))) =
      some ([], [.rejected none]) := by decide

/-- C6 (amended): only terminal failures carrying a defined HTTP status at
least 400 and other than 401 trigger the redirect with (status, backend
identity); the other terminal failures reject the caller with no redirect:
a transport-level failure (no status), a retry-exhausted second 401, and a
refresh-failure termination delivered to a waiter (`runCb` with a falsy
token, which routes the original 401 through `handleGlobalError`). -/
theorem spec_C6 (st : SysState) (a b c d : Nat) (ta tb tc td : ReqTask) (s : Nat)
    (hta : st.tasks[a]? = some ta) (hpa : ta.phase = .gotResponse none)
    (htb : st.tasks[b]? = some tb) (hpb : tb.phase = .gotResponse (some 401))
    (hrb : tb.retryFlag = true)
    (htc : st.tasks[c]? = some tc) (hpc : tc.phase = .gotResponse (some s))
    (h400 : 400 ≤ s) (h401 : s ≠ 401)
    (htd : st.tasks[d]? = some td) (_hpd : td.phase = .waiting) :
    (∀ s1, stepTask st a = some s1 → s1.redirects = st.redirects ∧
      s1.tasks[a]? = some { ta with phase := .rejected none }) ∧
    (∀ s1, stepTask st b = some s1 → s1.redirects = st.redirects ∧
      s1.tasks[b]? = some { tb with phase := .rejected (some 401) }) ∧
    (∀ s1, stepTask st c = some s1 → s1.redirects = st.redirects ++ [(s, tc.apiName)] ∧
      s1.tasks[c]? = some { tc with phase := .rejected (some s) }) ∧
    ((runCb none st d).redirects = st.redirects ∧
      (runCb none st d).tasks[d]? = some { td with phase := .rejected (some 401) }) := by
  have hlena : a < st.tasks.length := (List.getElem?_eq_some_iff.mp hta).1
  have hlenb : b < st.tasks.length := (List.getElem?_eq_some_iff.mp htb).1
  have hlenc : c < st.tasks.length := (List.getElem?_eq_some_iff.mp htc).1
  have hlend : d < st.tasks.length := (List.getElem?_eq_some_iff.mp htd).1
  refine ⟨?_, ?_, ?_, ?_⟩
  · intro s1 hs1
    rw [step_gotResponse_none st a ta hta hpa] at hs1
    injection hs1 with he; subst he
    refine ⟨?_, ?_⟩
    · show st.redirects ++ redirOf none ta.apiName = st.redirects
      simp [redirOf]
    · rw [handleGlobalError_tasks]
      exact List.getElem?_set_self (by simpa using hlena)
  · intro s1 hs1
    rw [step_gotResponse_reject st b tb 401 htb hpb (by omega) (by simp [hrb])] at hs1
    injection hs1 with he; subst he
    refine ⟨?_, ?_⟩
    · show st.redirects ++ redirOf (some 401) tb.apiName = st.redirects
      simp [redirOf]
    · rw [handleGlobalError_tasks]
      exact List.getElem?_set_self (by simpa using hlenb)
  · intro s1 hs1
    rw [step_gotResponse_reject st c tc s htc hpc (by omega) (by simp [h401])] at hs1
    injection hs1 with he; subst he
    refine ⟨?_, ?_⟩
    · show st.redirects ++ redirOf (some s) tc.apiName = st.redirects ++ [(s, tc.apiName)]
      rw [show redirOf (some s) tc.apiName = [(s, tc.apiName)] from by
        unfold redirOf; dsimp only; rw [if_pos ⟨h400, h401⟩]]
    · rw [handleGlobalError_tasks]
      exact List.getElem?_set_self (by simpa using hlenc)
  · unfold runCb
    rw [htd]; dsimp only
    rw [if_neg (by simp [tokenTruthy])]
    refine ⟨?_, ?_⟩
    · show st.redirects ++ redirOf (some 401) td.apiName = st.redirects
      simp [redirOf]
    · rw [handleGlobalError_tasks]
      rw [show applyCb none td = { td with phase := .rejected (some 401) } from by
        unfold applyCb; rw [if_neg (by simp [tokenTruthy])]]
      exact List.getElem?_set_self (by simpa using hlend)

def c6WSt : SysState :=
  { store := ⟨none, none⟩, isRefreshing := false, refreshQueue := []
    tasks := [{ mkTask "HQ-ERP" with transportFail := true, phase := .gotResponse none },
              { mkTask "Client-App" with retryFlag := true, phase := .gotResponse (some 401) },
              { mkTask "Vendor-ERP" with phase := .gotResponse (some 500) },
              { mkTask "HQ-ERP" with retryFlag := true, phase := .waiting }]
    refreshCalls := 1, timerWaits := 0, redirects := [], diagnostics := [] }

theorem spec_C6_witness :
    (run c6WSt [0]).redirects = [] ∧ (run c6WSt [1]).redirects = [] ∧
    (run c6WSt [2]).redirects = [(500, "Vendor-ERP")] ∧
    (runCb none c6WSt 3).redirects = [] ∧
    (runCb none c6WSt 3).tasks[3]? =
      some { mkTask "HQ-ERP" with retryFlag := true, phase := .rejected (some 401) } :=
  have h := spec_C6 c6WSt 0 1 2 3
    { mkTask "HQ-ERP" with transportFail := true, phase := .gotResponse none }
    { mkTask "Client-App" with retryFlag := true, phase := .gotResponse (some 401) }
    { mkTask "Vendor-ERP" with phase := .gotResponse (some 500) }
    { mkTask "HQ-ERP" with retryFlag := true, phase := .waiting }
    500 (by decide) rfl (by decide) rfl rfl (by decide) rfl (by omega) (by omega)
    (by decide) rfl
  have hr0 : stepTask c6WSt 0 = some (run c6WSt [0]) := by decide
  have hr1 : stepTask c6WSt 1 = some (run c6WSt [1]) := by decide
  have hr2 : stepTask c6WSt 2 = some (run c6WSt [2]) := by decide
  ⟨(h.1 _ hr0).1, (h.2.1 _ hr1).1, (h.2.2.1 _ hr2).1, h.2.2.2.1, h.2.2.2.2⟩

/-! ### Claim C7 -/

def c7Init : SysState :=
  initState ⟨some "expired-token", some "r1"⟩ [mkTask "HQ-ERP", mkTask "Client-App"]

def c7Sched : List Nat := [0, 0, 0, 1, 1]

/-- C7: at send time the request interceptor reads the current access token
from the store and attaches it as the request's credential when it is set
(truthy), leaving the header absent otherwise; consequently (concrete run) a
fresh request issued after a successful refresh carries `"new-access-token"`,
resolves with 200, and triggers no refresh cycle of its own (`refreshCalls`
stays at 1). -/
theorem spec_C7 (st : SysState) (i : Nat) (t : ReqTask)
    (ht : st.tasks[i]? = some t) (hp : t.phase = .toSend) (hh : t.headers = none) :
    stepTask st i = some (updTask st i { t with
      headers := (if tokenTruthy st.store.accessToken then st.store.accessToken else none)
      phase := .gotResponse (transport t
        (if tokenTruthy st.store.accessToken then st.store.accessToken else none)) }) ∧
    ((run c7Init c7Sched).tasks[1]? = some { mkTask "Client-App" with
        headers := some "new-access-token", phase := .resolved 200 } ∧
      (run c7Init c7Sched).refreshCalls = 1) := by
  refine ⟨?_, by decide, by decide⟩
  unfold stepTask
  rw [ht]; dsimp only; rw [hp]; dsimp only
  rw [show applyRequestInterceptor st.store t.headers =
    (if tokenTruthy st.store.accessToken then st.store.accessToken else none) from by
      unfold applyRequestInterceptor; rw [hh]]

def c7WSt : SysState := initState ⟨some "tok-abc", some "r1"⟩ [mkTask "HQ-ERP"]

theorem spec_C7_witness :
    stepTask c7WSt 0 = some (updTask c7WSt 0 { mkTask "HQ-ERP" with
      headers := (if tokenTruthy c7WSt.store.accessToken then c7WSt.store.accessToken else none)
      phase := .gotResponse (transport (mkTask "HQ-ERP")
        (if tokenTruthy c7WSt.store.accessToken then c7WSt.store.accessToken else none)) }) :=
  (spec_C7 c7WSt 0 (mkTask "HQ-ERP") (by decide) rfl rfl).1

/-! ### Claim C8 -/

/-- C8: the success path of a refresh updates only the access token: resuming
an initiator whose refresh operation produced a token stores that token as the
access token and leaves the refresh token field exactly as it was. -/
theorem spec_C8 (st : SysState) (i : Nat) (t : ReqTask) (tok : String) (d : Bool)
    (ht : st.tasks[i]? = some t) (hp : t.phase = .awaitRefresh (some tok) d) :
    ∀ s1, stepTask st i = some s1 →
      s1.store.accessToken = some tok ∧ s1.store.refreshToken = st.store.refreshToken := by
  intro s1 hs1
  unfold stepTask at hs1
  rw [ht] at hs1; dsimp only at hs1; rw [hp] at hs1; dsimp only at hs1
  split at hs1
  · cases hs1
  · injection hs1 with he; subst he
    have hst : (publishTokenRefresh (some tok)
        { st with store := ⟨some tok, st.store.refreshToken⟩ }).store =
        ⟨some tok, st.store.refreshToken⟩ :=
      publishTokenRefresh_store (some tok) { st with store := ⟨some tok, st.store.refreshToken⟩ }
    show (publishTokenRefresh (some tok)
        { st with store := ⟨some tok, st.store.refreshToken⟩ }).store.accessToken = some tok ∧
      (publishTokenRefresh (some tok)
        { st with store := ⟨some tok, st.store.refreshToken⟩ }).store.refreshToken =
        st.store.refreshToken
    rw [hst]
    exact ⟨rfl, rfl⟩

def c8Task : ReqTask :=
  { mkTask "HQ-ERP" with retryFlag := true, phase := .awaitRefresh (some "new-access-token") true }

def c8WSt : SysState :=
  { store := ⟨some "expired-token", some "r1"⟩, isRefreshing := true, refreshQueue := []
    tasks := [c8Task]
    refreshCalls := 1, timerWaits := 1, redirects := [], diagnostics := [] }

theorem spec_C8_witness :
    (run c8WSt [0]).store.accessToken = some "new-access-token" ∧
    (run c8WSt [0]).store.refreshToken = c8WSt.store.refreshToken :=
  have hrun : stepTask c8WSt 0 = some (run c8WSt [0]) := by decide
  spec_C8 c8WSt 0 c8Task "new-access-token" true (by decide) rfl _ hrun

/-! ### Claim C9 -/

def c9Init : SysState := initState ⟨some "expired-token", some "r1"⟩ [mkTask "HQ-ERP"]

/-- C9 counterexample: run a full refresh cycle for a single 401 request.  The
cycle completes (`refreshCalls = 1`, flag back to `false`) but the waiter
queue is not empty: it holds the initiating request's own callback, which was
subscribed after the publish had flushed the queue — refuting the claim that
the queue is empty after every refresh cycle. -/
theorem spec_C9_cex :
    (run c9Init [0, 0, 0]).refreshCalls = 1 ∧
    (run c9Init [0, 0, 0]).isRefreshing = false ∧
    (run c9Init [0, 0, 0]).refreshQueue = [0] := by decide

/-- C9 (amended): when the initiator of a refresh resumes (the cycle
completes), the in-flight flag is `false` and every callback that was in the
queue at publish time has been invoked exactly once, its task rewritten
through `applyCb` — but the queue afterwards is not empty: it contains exactly
the initiating request's own callback, subscribed after the publish and never
invoked during this cycle (its task stays `waiting`). -/
theorem spec_C9 (st : SysState) (i : Nat) (t : ReqTask) (res : Option String) (d : Bool)
    (ht : st.tasks[i]? = some t) (hp : t.phase = .awaitRefresh res d)
    (hni : i ∉ st.refreshQueue) (hnd : st.refreshQueue.Nodup) :
    ∀ s1, stepTask st i = some s1 →
      s1.isRefreshing = false ∧ s1.refreshQueue = [i] ∧
      s1.tasks[i]? = some { t with phase := .waiting } ∧
      (∀ (j : Nat) (u : ReqTask), j ∈ st.refreshQueue → st.tasks[j]? = some u →
        s1.tasks[j]? = some (applyCb res u)) := by
  intro s1 hs1
  unfold stepTask at hs1
  rw [ht] at hs1; dsimp only at hs1; rw [hp] at hs1; dsimp only at hs1
  split at hs1
  · cases hs1
  · rename_i u hu
    injection hs1 with he; subst he
    have hu2 : (st.refreshQueue.foldl (runCb res)
        { st with store := ⟨res, st.store.refreshToken⟩ }).tasks[i]? = some u := hu
    have hpub : (st.refreshQueue.foldl (runCb res)
        { st with store := ⟨res, st.store.refreshToken⟩ }).tasks[i]? = some t := by
      rw [pubFold_tasks_notMem res st.refreshQueue _ i hni]
      exact ht
    have hut : u = t := Option.some.inj (hu2.symm.trans hpub)
    subst hut
    have hlen : i < (st.refreshQueue.foldl (runCb res)
        { st with store := ⟨res, st.store.refreshToken⟩ }).tasks.length :=
      (List.getElem?_eq_some_iff.mp hu2).1
    refine ⟨rfl, rfl, ?_, ?_⟩
    · exact List.getElem?_set_self (by simpa using hlen)
    · intro j u2 hjq hju
      have hij : i ≠ j := fun e => hni (by rw [e]; exact hjq)
      show ((st.refreshQueue.foldl (runCb res)
          { st with store := ⟨res, st.store.refreshToken⟩ }).tasks.set i
            { u with phase := .waiting })[j]? = some (applyCb res u2)
      rw [List.getElem?_set_ne hij]
      exact pubFold_tasks_mem res st.refreshQueue _ j u2 hnd hjq hju

def c9WTask0 : ReqTask :=
  { mkTask "HQ-ERP" with retryFlag := true, phase := .awaitRefresh (some "new-access-token") true }

def c9WTask1 : ReqTask :=
  { mkTask "Client-App" with headers := some "expired-token", retryFlag := true, phase := .waiting }

def c9WSt : SysState :=
  { store := ⟨some "expired-token", some "r1"⟩, isRefreshing := true, refreshQueue := [1]
    tasks := [c9WTask0, c9WTask1]
    refreshCalls := 1, timerWaits := 1, redirects := [], diagnostics := [] }

theorem spec_C9_witness :
    (run c9WSt [0]).isRefreshing = false ∧ (run c9WSt [0]).refreshQueue = [0] ∧
    (run c9WSt [0]).tasks[0]? = some { c9WTask0 with phase := .waiting } ∧
    (run c9WSt [0]).tasks[1]? = some (applyCb (some "new-access-token") c9WTask1) :=
  have hrun : stepTask c9WSt 0 = some (run c9WSt [0]) := by decide
  have h := spec_C9 c9WSt 0 c9WTask0 (some "new-access-token") true (by decide) rfl
    (by decide) (by decide) _ hrun
  ⟨h.1, h.2.1, h.2.2.1, h.2.2.2 1 c9WTask1 (by decide) (by decide)⟩

/-! ### Claim C10 -/

/-- C10: the response-handling path never mutates the credential store: a 2xx
response, a failure status at least 400 other than 401, and a transport-level
failure each leave both fields of the store exactly as they were, and the send
step itself (request interceptor plus transport) also leaves the store
untouched. -/
theorem spec_C10 (st : SysState) (i k : Nat) (t u : ReqTask) (r : Option Nat)
    (ht : st.tasks[i]? = some t) (hp : t.phase = .gotResponse r)
    (hr : r = none ∨ ∃ s, r = some s ∧ (200 ≤ s ∧ s < 300 ∨ 400 ≤ s ∧ s ≠ 401))
    (htk : st.tasks[k]? = some u) (hpk : u.phase = .toSend) :
    (∀ s1, stepTask st i = some s1 → s1.store = st.store) ∧
    (∀ s1, stepTask st k = some s1 → s1.store = st.store) := by
  constructor
  · intro s1 hs1
    rcases hr with rfl | ⟨s, rfl, hs⟩
    · rw [step_gotResponse_none st i t ht hp] at hs1
      injection hs1 with he; subst he; rfl
    · rcases hs with h2 | h2
      · rw [step_gotResponse_2xx st i t s ht hp h2] at hs1
        injection hs1 with he; subst he; rfl
      · rw [step_gotResponse_reject st i t s ht hp (by omega) (by simp [h2.2])] at hs1
        injection hs1 with he; subst he; rfl
  · intro s1 hs1
    unfold stepTask at hs1
    rw [htk] at hs1; dsimp only at hs1; rw [hpk] at hs1; dsimp only at hs1
    injection hs1 with he; subst he; rfl

def c10WTask : ReqTask := { mkTask "HQ-ERP" with phase := .gotResponse (some 200) }

def c10WSt : SysState := initState ⟨some "tok", some "r1"⟩ [c10WTask, mkTask "Client-App"]

theorem spec_C10_witness :
    (run c10WSt [0]).store = c10WSt.store ∧ (run c10WSt [1]).store = c10WSt.store :=
  have h := spec_C10 c10WSt 0 1 c10WTask (mkTask "Client-App") (some 200) (by decide) rfl
    (Or.inr ⟨200, rfl, Or.inl (by omega)⟩) (by decide) rfl
  have hr0 : stepTask c10WSt 0 = some (run c10WSt [0]) := by decide
  have hr1 : stepTask c10WSt 1 = some (run c10WSt [1]) := by decide
  ⟨h.1 _ hr0, h.2 _ hr1⟩

end Axios
